import Mathlib

/-!
Shallow embedding of `src/libs/transforms/src/transforms/api/_dataset.py`
(foundry-dev-tools `transforms.api` dataset input shim).

The module under verification is glue over two injected collaborators: a REST
client (`TRANSFORMS_FOUNDRY_CONTEXT.foundry_rest_client`) and a cached client
(`TRANSFORMS_FOUNDRY_CONTEXT.cached_foundry_client` with its `cache` mapping).
We model the collaborators as records of functions, the mutable cache by
explicit state passing, and the observable interactions (REST calls,
`load_dataset`, `warnings.warn`) by an effect trace returned next to each
result.  Python exceptions become `Except` values.

Python computes `size_in_bytes / 1024 / 1024` with float division; for any
integer below 2^53 a division by a power of two is exact in IEEE doubles, so
the computation is modelled exactly with rationals.
-/

namespace FoundryDevTools

/-- Stand-in for `pyspark.sql.DataFrame`: the module never inspects the
dataframe, it only moves it around, so an opaque identifier suffices. -/
structure SparkDF where
  id : Nat
deriving DecidableEq, Repr

/-- The inner `transaction` record of a last transaction:
`transaction["metadata"]["totalFileSize"]` plus whatever
`foundry_dev_tools.utils.misc.is_dataset_a_view` inspects, abstracted as a
boolean attribute (that helper is outside `src/`). -/
structure TransactionInner where
  isView : Bool
  totalFileSize : Nat
deriving DecidableEq, Repr

/-- `dataset_identity["last_transaction"]`: a rid plus the transaction record. -/
structure LastTransaction where
  rid : String
  transaction : TransactionInner
deriving DecidableEq, Repr

/-- `api_types.DatasetIdentity`: the dict with keys `dataset_path`,
`dataset_rid`, `last_transaction_rid`, `last_transaction`. -/
structure DatasetIdentity where
  dataset_path : String
  dataset_rid : String
  last_transaction_rid : Option String
  last_transaction : Option LastTransaction
deriving DecidableEq, Repr

/-- `foundry_dev_tools.utils.misc.is_dataset_a_view` (outside `src/`): a
predicate on the transaction record, abstracted as reading the boolean
attribute carried by `TransactionInner`. -/
def is_dataset_a_view (transaction : TransactionInner) : Bool :=
  transaction.isView

/-- The configuration keys read by the module
(`TRANSFORMS_FOUNDRY_CONTEXT.config.…`).  The size threshold is an integer
number of megabytes in the shipped configuration; `ℚ` covers that and keeps
the comparison with the rational dataset size exact. -/
structure Config where
  transforms_freeze_cache : Bool
  transforms_sql_sample_select_random : Bool
  transforms_sql_sample_row_limit : Nat
  transforms_sql_dataset_size_threshold : ℚ
  transforms_force_full_dataset_download : Bool

/-- The exception types the module raises or catches
(`foundry_dev_tools.errors.dataset`), plus a catch-all for errors it merely
propagates. -/
inductive FoundryError where
  | branchNotFound
  | datasetHasNoSchema
  | datasetHasNoTransactions (dataset : String)
  | other (msg : String)
deriving DecidableEq, Repr

/-- Observable interactions with the collaborators and with `warnings.warn`.
`warnSubsetRetrieval` carries the data interpolated into the warning message
(the exact Python float-to-string rendering of the rounded size is
presentation only and not modelled). -/
inductive Effect where
  | restGetDatasetIdentity (alias_ branch : String)
  | restGetDatasetSchema (dataset_rid : String) (last_transaction_rid : Option String) (branch : String)
  | restFoundryStats (dataset_rid last_transaction_rid : String)
  | restQueryFoundrySql (query branch : String)
  | cacheGetIdentityNotBranchAware (alias_ : String)
  | loadDataset (dataset_rid branch : String)
  | fetchDataset (dataset_rid branch : String)
  | warnSubsetRetrieval (dataset_name dataset_rid : String) (row_limit : Nat)
deriving DecidableEq, Repr

/-- Calls that reach the REST client (`foundry_rest_client.…`). -/
def Effect.isRestCall : Effect → Bool
  | .restGetDatasetIdentity _ _ => true
  | .restGetDatasetSchema _ _ _ => true
  | .restFoundryStats _ _ => true
  | .restQueryFoundrySql _ _ => true
  | _ => false

def Effect.isLoadDataset : Effect → Bool
  | .loadDataset _ _ => true
  | _ => false

def Effect.isQuery : Effect → Bool
  | .restQueryFoundrySql _ _ => true
  | _ => false

def Effect.isWarn : Effect → Bool
  | .warnSubsetRetrieval _ _ _ => true
  | _ => false

def Effect.isGetIdentity : Effect → Bool
  | .restGetDatasetIdentity _ _ => true
  | _ => false

/-- `TRANSFORMS_FOUNDRY_CONTEXT.foundry_rest_client`, restricted to the four
methods the module calls.  Fallible remote calls return `Except`. -/
structure RestClient where
  get_dataset_identity : String → String → Except FoundryError DatasetIdentity
  get_dataset_schema : String → Option String → String → Except FoundryError String
  foundry_stats : String → String → Nat
  query_foundry_sql : String → String → SparkDF

/-- `cached_foundry_client.cache`: the dataframe mapping (an association list
standing for the dict keyed by `DatasetIdentity`) together with the other
cache methods the module calls. -/
structure Cache where
  entries : List (DatasetIdentity × SparkDF)
  dataset_has_schema : DatasetIdentity → Bool
  get_dataset_identity_not_branch_aware : String → DatasetIdentity
  get_path_to_local_dataset : DatasetIdentity → String

/-- `list(cache.keys())`. -/
def Cache.keys (c : Cache) : List DatasetIdentity :=
  c.entries.map Prod.fst

/-- `cache[k]`, as a total lookup (`none` where Python raises `KeyError`). -/
def Cache.lookup (c : Cache) (k : DatasetIdentity) : Option SparkDF :=
  (c.entries.find? (fun e => e.fst == k)).map Prod.snd

/-- `cache[k] = v` (Python dict assignment: overwrite or add). -/
def Cache.insert (c : Cache) (k : DatasetIdentity) (v : SparkDF) : Cache :=
  { c with entries := (k, v) :: c.entries.filter (fun e => e.fst != k) }

/-- `TRANSFORMS_FOUNDRY_CONTEXT.cached_foundry_client`, restricted to what the
module calls.  `load_dataset` and `_fetch_dataset` live outside `src/`, so
only their return values are abstracted here; the cache update performed
inside `load_dataset` is modelled at the call site (see
`Input._retrieve_from_foundry_and_cache`). -/
structure CachedFoundryClient where
  cache : Cache
  load_dataset : String → String → SparkDF
  fetch_dataset_path : DatasetIdentity → String → String

/-- The slice of `TRANSFORMS_FOUNDRY_CONTEXT` the module reads. -/
structure Context where
  config : Config
  foundry_rest_client : RestClient
  cached_foundry_client : CachedFoundryClient

/-- A Python value of the types `UnmarkingDef.__init__` annotates for its
arguments (`list[str] | str` and `list[str] | str | None`): `None`, a string,
or a list of strings. -/
inductive PyVal where
  | none
  | str (s : String)
  | list (xs : List String)
deriving DecidableEq, Repr

/-- Python truthiness on `PyVal` (`not x` in `_as_list`): `None`, `""` and
`[]` are falsy. -/
def PyVal.truthy : PyVal → Bool
  | .none => false
  | .str s => !s.isEmpty
  | .list xs => !xs.isEmpty

/-- `isinstance(x, list)`. -/
def PyVal.isList : PyVal → Bool
  | .list _ => true
  | _ => false

/-- The list payload of a `PyVal.list`, `[]` otherwise. -/
def PyVal.asList : PyVal → List String
  | .list xs => xs
  | _ => []

/-- The string payload of a `PyVal.str`, `""` otherwise (used to state what
wrapping a single value produces). -/
def PyVal.asStr : PyVal → String
  | .str s => s
  | _ => ""

/-- `_as_list` from the source: `if not list_or_single_item: return []` then
`return list_or_single_item if isinstance(list_or_single_item, list) else
[list_or_single_item]`.  A wrapped single value is a string here because a
truthy non-list `PyVal` is a nonempty string. -/
def _as_list (list_or_single_item : PyVal) : List String :=
  if !list_or_single_item.truthy then []
  else match list_or_single_item with
    | .list xs => xs
    | .str s => [s]
    | .none => []

/-- The attributes of `UnmarkingDef` after `__init__`. -/
structure UnmarkingDef where
  marking_ids : List String
  branches : List String
deriving DecidableEq, Repr

/-- `UnmarkingDef.__init__`: normalizes both arguments with `_as_list`. -/
def UnmarkingDef.init (marking_ids on_branches : PyVal) : UnmarkingDef :=
  { marking_ids := _as_list marking_ids, branches := _as_list on_branches }

/-- `Markings` subclasses `UnmarkingDef` without overriding anything. -/
def Markings.init (marking_ids on_branches : PyVal) : UnmarkingDef :=
  UnmarkingDef.init marking_ids on_branches

/-- `OrgMarkings` subclasses `UnmarkingDef` without overriding anything. -/
def OrgMarkings.init (marking_ids on_branches : PyVal) : UnmarkingDef :=
  UnmarkingDef.init marking_ids on_branches

/-- `Output.__init__` stores the alias only (`alias` is a Lean keyword, hence
the trailing underscore). -/
structure Output where
  alias_ : Option String
deriving DecidableEq, Repr

/-- The attributes an `Input` object carries once `__init__` has returned. -/
structure InputState where
  _is_spark_df_retrievable : Bool
  _dataset_identity : DatasetIdentity
  branch : String
  _spark_df : Option SparkDF
deriving DecidableEq, Repr

namespace Input

/-- `Input._is_online`: online iff `transforms_freeze_cache` is not set. -/
def _is_online (ctx : Context) : Bool :=
  !ctx.config.transforms_freeze_cache

/-- `Input._dataset_has_schema`: calls `get_dataset_schema`; a
`DatasetHasNoSchemaError` means `False`, success means `True`, any other
error propagates. -/
def _dataset_has_schema (ctx : Context) (dataset_identity : DatasetIdentity)
    (branch : String) : Except FoundryError Bool × List Effect :=
  let tr := [Effect.restGetDatasetSchema dataset_identity.dataset_rid
    dataset_identity.last_transaction_rid branch]
  match ctx.foundry_rest_client.get_dataset_schema dataset_identity.dataset_rid
      dataset_identity.last_transaction_rid branch with
  | .error .datasetHasNoSchema => (.ok false, tr)
  | .error e => (.error e, tr)
  | .ok _ => (.ok true, tr)

/-- The tail of `Input._online` once `dataset_identity` is resolved (and
`branch` holds the branch that resolution succeeded on): the
no-transactions check, then the schema probe deciding the dataframe/file-only
mode.  `tr` is the trace of the resolution calls already performed. -/
def _online_resolved (ctx : Context) (alias_ branch : String)
    (dataset_identity : DatasetIdentity) (tr : List Effect) :
    Except FoundryError (Bool × DatasetIdentity × String) × List Effect :=
  if dataset_identity.last_transaction_rid = .none then
    (.error (.datasetHasNoTransactions alias_), tr)
  else
    match _dataset_has_schema ctx dataset_identity branch with
    | (.error e, tr2) => (.error e, tr ++ tr2)
    | (.ok true, tr2) => (.ok (true, dataset_identity, branch), tr ++ tr2)
    | (.ok false, tr2) => (.ok (false, dataset_identity, branch), tr ++ tr2)

/-- `Input._online`: resolve the identity on the requested branch, on
`BranchNotFoundError` retry once on `"master"` (other errors, and errors of
the retry itself, propagate), then check transactions and schema. -/
def _online (ctx : Context) (alias_ branch : String) :
    Except FoundryError (Bool × DatasetIdentity × String) × List Effect :=
  match ctx.foundry_rest_client.get_dataset_identity alias_ branch with
  | .ok dataset_identity =>
      _online_resolved ctx alias_ branch dataset_identity
        [Effect.restGetDatasetIdentity alias_ branch]
  | .error .branchNotFound =>
      let tr := [Effect.restGetDatasetIdentity alias_ branch,
                 Effect.restGetDatasetIdentity alias_ "master"]
      match ctx.foundry_rest_client.get_dataset_identity alias_ "master" with
      | .ok dataset_identity => _online_resolved ctx alias_ "master" dataset_identity tr
      | .error e => (.error e, tr)
  | .error e => (.error e, [Effect.restGetDatasetIdentity alias_ branch])

/-- `Input._offline`: resolve from the cache (not branch aware), keep the
requested branch, and probe the schema through the cache. -/
def _offline (ctx : Context) (alias_ branch : String) :
    (Bool × DatasetIdentity × String) × List Effect :=
  let dataset_identity :=
    ctx.cached_foundry_client.cache.get_dataset_identity_not_branch_aware alias_
  if ctx.cached_foundry_client.cache.dataset_has_schema dataset_identity then
    ((true, dataset_identity, branch), [Effect.cacheGetIdentityNotBranchAware alias_])
  else
    ((false, dataset_identity, branch), [Effect.cacheGetIdentityNotBranchAware alias_])

/-- `Input.__init__` with the branch argument already resolved: the
`_get_branch` fallback reads git metadata from the filesystem and is outside
this model, so `branch` stands for the explicitly requested branch. -/
def init (ctx : Context) (alias_ branch : String) :
    Except FoundryError InputState × List Effect :=
  if _is_online ctx then
    match _online ctx alias_ branch with
    | (.ok (r, di, br), tr) =>
        (.ok { _is_spark_df_retrievable := r, _dataset_identity := di,
               branch := br, _spark_df := .none }, tr)
    | (.error e, tr) => (.error e, tr)
  else
    match _offline ctx alias_ branch with
    | ((r, di, br), tr) =>
        (.ok { _is_spark_df_retrievable := r, _dataset_identity := di,
               branch := br, _spark_df := .none }, tr)

/-- `Input._read_spark_df_with_sql_query`: builds the sampling query and runs
it through `query_foundry_sql` on the given branch. -/
def _read_spark_df_with_sql_query (ctx : Context) (dataset_path : String)
    (branch : String) : SparkDF × List Effect :=
  let query := "SELECT * FROM `" ++ dataset_path ++ "`"
  let query := if ctx.config.transforms_sql_sample_select_random then
    query ++ " ORDER BY RAND()" else query
  let query := query ++ " LIMIT " ++ toString ctx.config.transforms_sql_sample_row_limit
  (ctx.foundry_rest_client.query_foundry_sql query branch,
   [Effect.restQueryFoundrySql query branch])

/-- The `size_in_bytes` computation opening `_retrieve_from_foundry_and_cache`:
`foundry_stats(...)["computedDatasetStats"]["sizeInBytes"]` when the last
transaction is a view, `transaction["metadata"]["totalFileSize"]` otherwise,
paired with the REST call the view case performs. -/
def _size_in_bytes (ctx : Context) (dataset_identity : DatasetIdentity)
    (lt : LastTransaction) : Nat × List Effect :=
  if is_dataset_a_view lt.transaction then
    (ctx.foundry_rest_client.foundry_stats dataset_identity.dataset_rid lt.rid,
     [Effect.restFoundryStats dataset_identity.dataset_rid lt.rid])
  else
    (lt.transaction.totalFileSize, [])

/-- `size_in_mega_bytes = size_in_bytes / 1024 / 1024`, exactly in `ℚ`. -/
def _size_in_mega_bytes (ctx : Context) (dataset_identity : DatasetIdentity)
    (lt : LastTransaction) : ℚ :=
  ((_size_in_bytes ctx dataset_identity lt).1 : ℚ) / 1024 / 1024

/-- `Input._retrieve_from_foundry_and_cache`: compute the size, then either a
full `load_dataset` download (when forced or strictly below the threshold) or
a warning plus the sampling query, whose result is stored in the cache.
`none` models the Python `TypeError` of `dataset_identity["last_transaction"]
["transaction"]` when there is no last transaction.  The cache entry written
by the full-download branch is produced inside `CachedFoundryClient
.load_dataset`, which is outside `src/`; modelled from the spec:
"fetches full data or a row-limited/sampled query result …, then caches it". -/
def _retrieve_from_foundry_and_cache (ctx : Context)
    (dataset_identity : DatasetIdentity) (branch : String) :
    Option (SparkDF × Cache × List Effect) :=
  match dataset_identity.last_transaction with
  | .none => .none
  | .some lt =>
    let (size_in_bytes, stats_tr) := _size_in_bytes ctx dataset_identity lt
    let size_in_mega_bytes : ℚ := (size_in_bytes : ℚ) / 1024 / 1024
    if ctx.config.transforms_force_full_dataset_download ∨
        size_in_mega_bytes < ctx.config.transforms_sql_dataset_size_threshold then
      let spark_df := ctx.cached_foundry_client.load_dataset
        dataset_identity.dataset_rid branch
      .some (spark_df,
             ctx.cached_foundry_client.cache.insert dataset_identity spark_df,
             stats_tr ++ [Effect.loadDataset dataset_identity.dataset_rid branch])
    else
      let dataset_name := (dataset_identity.dataset_path.splitOn "/").getLastD ""
      let (spark_df, query_tr) :=
        _read_spark_df_with_sql_query ctx dataset_identity.dataset_path branch
      .some (spark_df,
             ctx.cached_foundry_client.cache.insert dataset_identity spark_df,
             stats_tr ++ [Effect.warnSubsetRetrieval dataset_name
               dataset_identity.dataset_rid
               ctx.config.transforms_sql_sample_row_limit] ++ query_tr)

/-- `Input._retrieve_from_cache`: `cache[dataset_identity]` (`none` where
Python would raise `KeyError`). -/
def _retrieve_from_cache (ctx : Context) (dataset_identity : DatasetIdentity)
    (_branch : String) : Option SparkDF :=
  ctx.cached_foundry_client.cache.lookup dataset_identity

/-- `Input._retrieve_spark_df`: cache hit (`dataset_identity in
list(cache.keys())`) reads from the cache, miss goes to Foundry. -/
def _retrieve_spark_df (ctx : Context) (dataset_identity : DatasetIdentity)
    (branch : String) : Option (SparkDF × Cache × List Effect) :=
  if dataset_identity ∈ ctx.cached_foundry_client.cache.keys then
    match _retrieve_from_cache ctx dataset_identity branch with
    | .some df => .some (df, ctx.cached_foundry_client.cache, [])
    | .none => .none
  else
    _retrieve_from_foundry_and_cache ctx dataset_identity branch

/-- `Input.dataframe`: memoizes into `self._spark_df`; returns the possibly
updated `InputState` and cache next to the returned value (`none` models a
raised exception inside the retrieval). -/
def dataframe (ctx : Context) (s : InputState) :
    Option (Option SparkDF × InputState × Cache × List Effect) :=
  if s._is_spark_df_retrievable = true ∧ s._spark_df = .none then
    if _is_online ctx then
      match _retrieve_spark_df ctx s._dataset_identity s.branch with
      | .some (df, cache2, tr) =>
          .some (.some df, { s with _spark_df := .some df }, cache2, tr)
      | .none => .none
    else
      match ctx.cached_foundry_client.cache.lookup s._dataset_identity with
      | .some df =>
          .some (.some df, { s with _spark_df := .some df },
                 ctx.cached_foundry_client.cache, [])
      | .none => .none
  else
    .some (s._spark_df, s, ctx.cached_foundry_client.cache, [])

/-- `Input.get_dataset_identity`. -/
def get_dataset_identity (s : InputState) : DatasetIdentity :=
  s._dataset_identity

/-- `Input.get_local_path_to_dataset`: `_fetch_dataset` online,
`cache.get_path_to_local_dataset` offline. -/
def get_local_path_to_dataset (ctx : Context) (s : InputState) :
    String × List Effect :=
  if _is_online ctx then
    (ctx.cached_foundry_client.fetch_dataset_path s._dataset_identity s.branch,
     [Effect.fetchDataset s._dataset_identity.dataset_rid s.branch])
  else
    (ctx.cached_foundry_client.cache.get_path_to_local_dataset s._dataset_identity, [])

/-- Effect trace of an uncached retrieval (empty for the ill-formed
no-last-transaction case). -/
def retrievalTrace (ctx : Context) (dataset_identity : DatasetIdentity)
    (branch : String) : List Effect :=
  match _retrieve_from_foundry_and_cache ctx dataset_identity branch with
  | .some (_, _, tr) => tr
  | .none => []

/-- Dataframe produced by an uncached retrieval. -/
def retrievalResult (ctx : Context) (dataset_identity : DatasetIdentity)
    (branch : String) : Option SparkDF :=
  match _retrieve_from_foundry_and_cache ctx dataset_identity branch with
  | .some (df, _, _) => .some df
  | .none => .none

end Input

/-! ### Shared lemmas about the cache mapping -/

/-- `find?` over an association list succeeds whenever the key occurs among
the mapped first components. -/
theorem find_fst_isSome (l : List (DatasetIdentity × SparkDF))
    (k : DatasetIdentity) (h : k ∈ l.map Prod.fst) :
    (l.find? fun e => e.fst == k).isSome = true := by
  induction l with
  | nil => simp at h
  | cons e es ih =>
    by_cases hk : (e.fst == k) = true
    · simp [List.find?, hk]
    · rw [Bool.not_eq_true] at hk
      simp only [List.find?, hk]
      apply ih
      simp only [List.map_cons, List.mem_cons] at h
      rcases h with h | h
      · subst h
        simp at hk
      · exact h

/-- A key among `cache.keys` has a cached dataframe. -/
theorem Cache.lookup_isSome_of_mem_keys (c : Cache) (k : DatasetIdentity)
    (h : k ∈ c.keys) : (c.lookup k).isSome = true := by
  unfold Cache.keys at h
  have hf := find_fst_isSome c.entries k h
  unfold Cache.lookup
  cases hfind : c.entries.find? fun e => e.fst == k with
  | none => rw [hfind] at hf; simp at hf
  | some v => rfl

/-- Dict assignment makes the assigned value retrievable under its key. -/
theorem Cache.lookup_insert_self (c : Cache) (k : DatasetIdentity)
    (v : SparkDF) : (c.insert k v).lookup k = .some v := by
  simp [Cache.lookup, Cache.insert, List.find?_cons_of_pos]

/-! ### Concrete collaborators for witnesses and counterexamples -/

/-- A small last transaction: 1 MiB of files, not a view. -/
def exLtSmall : LastTransaction :=
  { rid := "txn-1", transaction := { isView := false, totalFileSize := 1048576 } }

/-- A big last transaction: 2 MiB of files, not a view. -/
def exLtBig : LastTransaction :=
  { rid := "txn-2", transaction := { isView := false, totalFileSize := 2097152 } }

/-- Identity of a 1 MiB dataset. -/
def exDiSmall : DatasetIdentity :=
  { dataset_path := "/ns/small", dataset_rid := "rid-small",
    last_transaction_rid := .some "txn-1", last_transaction := .some exLtSmall }

/-- Identity of a 2 MiB dataset. -/
def exDiBig : DatasetIdentity :=
  { dataset_path := "/ns/big", dataset_rid := "rid-big",
    last_transaction_rid := .some "txn-2", last_transaction := .some exLtBig }

/-- Identity of a dataset without transactions. -/
def exDiNoTx : DatasetIdentity :=
  { dataset_path := "/ns/empty", dataset_rid := "rid-empty",
    last_transaction_rid := .none, last_transaction := .none }

/-- A REST client whose lookups all succeed with `exDiSmall`. -/
def exRest : RestClient :=
  { get_dataset_identity := fun _ _ => .ok exDiSmall,
    get_dataset_schema := fun _ _ _ => .ok "schema-json",
    foundry_stats := fun _ _ => 0,
    query_foundry_sql := fun _ _ => { id := 2 } }

/-- An empty cache (schema present, identities resolve to `exDiSmall`). -/
def exCache : Cache :=
  { entries := [],
    dataset_has_schema := fun _ => true,
    get_dataset_identity_not_branch_aware := fun _ => exDiSmall,
    get_path_to_local_dataset := fun _ => "/cache/small" }

/-- Baseline context: online, sampling threshold 2 megabytes, nothing
forced, no random sampling. -/
def exCtx : Context :=
  { config :=
    { transforms_freeze_cache := false,
      transforms_sql_sample_select_random := false,
      transforms_sql_sample_row_limit := 5000,
      transforms_sql_dataset_size_threshold := 2,
      transforms_force_full_dataset_download := false },
    foundry_rest_client := exRest,
    cached_foundry_client :=
      { cache := exCache,
        load_dataset := fun _ _ => { id := 1 },
        fetch_dataset_path := fun _ _ => "/downloaded/files" } }

/-- `exCtx` with the force-full-download flag set and threshold 1 MB. -/
def exCtxForce : Context :=
  { exCtx with config :=
    { exCtx.config with
      transforms_force_full_dataset_download := true,
      transforms_sql_dataset_size_threshold := 1 } }

/-- `exCtx` with threshold 1 MB (so `exDiSmall` sits exactly on it). -/
def exCtxThr1 : Context :=
  { exCtx with config :=
    { exCtx.config with transforms_sql_dataset_size_threshold := 1 } }

/-- `exCtx` with the cache frozen (offline). -/
def exCtxFrozen : Context :=
  { exCtx with config := { exCtx.config with transforms_freeze_cache := true } }

/-- A REST client that knows `exDiSmall` only on branch `"master"`. -/
def exRestRetry : RestClient :=
  { exRest with get_dataset_identity := fun _ branch =>
      if branch = "master" then .ok exDiSmall else .error .branchNotFound }

/-- Online context resolving only on `"master"`. -/
def exCtxRetry : Context :=
  { exCtx with foundry_rest_client := exRestRetry }

/-- Online context whose resolution yields a dataset without transactions. -/
def exCtxNoTx : Context :=
  { exCtx with foundry_rest_client :=
    { exRest with get_dataset_identity := fun _ _ => .ok exDiNoTx } }

/-- Online context whose schema lookup raises `DatasetHasNoSchemaError`. -/
def exCtxNoSchema : Context :=
  { exCtx with foundry_rest_client :=
    { exRest with get_dataset_schema := fun _ _ _ => .error .datasetHasNoSchema } }

/-- Online context whose cache already holds a dataframe for `exDiSmall`. -/
def exCtxHit : Context :=
  { exCtx with cached_foundry_client :=
    { exCtx.cached_foundry_client with cache :=
      { exCache with entries := [(exDiSmall, { id := 9 })] } } }

/-- Input state as constructed for `exDiSmall` with a schema. -/
def exState : InputState :=
  { _is_spark_df_retrievable := true, _dataset_identity := exDiSmall,
    branch := "master", _spark_df := .none }

/-- Input state in file-only mode (no schema). -/
def exStateFileOnly : InputState :=
  { _is_spark_df_retrievable := false, _dataset_identity := exDiSmall,
    branch := "master", _spark_df := .none }

/-! ### Shared lemmas about online resolution -/

/-- The schema probe performs exactly one `get_dataset_schema` call. -/
theorem dataset_has_schema_trace (ctx : Context) (di : DatasetIdentity)
    (branch : String) :
    (Input._dataset_has_schema ctx di branch).2 =
      [Effect.restGetDatasetSchema di.dataset_rid di.last_transaction_rid branch] := by
  unfold Input._dataset_has_schema
  rcases ctx.foundry_rest_client.get_dataset_schema di.dataset_rid
      di.last_transaction_rid branch with e | s
  · cases e <;> rfl
  · rfl

/-- Closed form of `_online_resolved`: the no-transactions guard first, then
the mode decided by the schema probe, with the identity and branch passed
through unchanged. -/
theorem online_resolved_eq (ctx : Context) (alias_ branch : String)
    (di : DatasetIdentity) (tr : List Effect) :
    Input._online_resolved ctx alias_ branch di tr =
      if di.last_transaction_rid = .none then
        (.error (.datasetHasNoTransactions alias_), tr)
      else
        match (Input._dataset_has_schema ctx di branch).1 with
        | .error e => (.error e, tr ++ (Input._dataset_has_schema ctx di branch).2)
        | .ok b => (.ok (b, di, branch), tr ++ (Input._dataset_has_schema ctx di branch).2) := by
  unfold Input._online_resolved
  rcases hs : Input._dataset_has_schema ctx di branch with ⟨res, tr2⟩
  by_cases htx : di.last_transaction_rid = .none
  · simp [htx]
  · rw [if_neg htx, if_neg htx]
    rcases res with e | b
    · rfl
    · cases b <;> rfl

/-- When online, `__init__` forwards `_online`'s trace unchanged and wraps a
successful triple into the stored attributes. -/
theorem init_online_eq (ctx : Context) (alias_ branch : String)
    (hon : Input._is_online ctx = true) :
    Input.init ctx alias_ branch =
      (match (Input._online ctx alias_ branch).1 with
       | .ok (r, di, br) =>
          .ok { _is_spark_df_retrievable := r, _dataset_identity := di,
                branch := br, _spark_df := .none }
       | .error e => .error e,
       (Input._online ctx alias_ branch).2) := by
  unfold Input.init
  rw [hon]
  rcases ho : Input._online ctx alias_ branch with ⟨res, tr⟩
  rcases res with e | ⟨r, di, br⟩
  · rfl
  · rfl

/-! ### Claim theorems -/

/-- Claim C2: when resolving the identity on the requested branch raises
`BranchNotFoundError` and resolving on `"master"` succeeds, the constructor
issues exactly the two resolution calls (so it retried exactly once, with
branch `"master"`), and a successfully constructed `Input` stores `"master"`
as the effective branch and the identity the retry returned. -/
theorem online_retries_once_on_master (ctx : Context) (alias_ branch : String)
    (di : DatasetIdentity)
    (hon : Input._is_online ctx = true)
    (h1 : ctx.foundry_rest_client.get_dataset_identity alias_ branch =
      .error .branchNotFound)
    (h2 : ctx.foundry_rest_client.get_dataset_identity alias_ "master" = .ok di) :
    ((Input.init ctx alias_ branch).2.filter Effect.isGetIdentity =
      [.restGetDatasetIdentity alias_ branch,
       .restGetDatasetIdentity alias_ "master"]) ∧
    (∀ st : InputState, (Input.init ctx alias_ branch).1 = .ok st →
      st.branch = "master" ∧ st._dataset_identity = di) := by
  have honline : Input._online ctx alias_ branch =
      Input._online_resolved ctx alias_ "master" di
        [Effect.restGetDatasetIdentity alias_ branch,
         Effect.restGetDatasetIdentity alias_ "master"] := by
    unfold Input._online
    rw [h1, h2]
  rw [init_online_eq ctx alias_ branch hon, honline, online_resolved_eq]
  by_cases htx : di.last_transaction_rid = .none
  · rw [if_pos htx]
    refine ⟨by simp [Effect.isGetIdentity], ?_⟩
    intro st hst
    simp at hst
  · rw [if_neg htx]
    rcases hs : (Input._dataset_has_schema ctx di "master").1 with e | b
    · refine ⟨?_, ?_⟩
      · simp [dataset_has_schema_trace, Effect.isGetIdentity]
      · intro st hst
        simp at hst
    · refine ⟨?_, ?_⟩
      · simp [dataset_has_schema_trace, Effect.isGetIdentity]
      · intro st hst
        simp at hst
        subst hst
        exact ⟨rfl, rfl⟩

/-- Witness for C2 at a concrete context: the two resolution calls occur in
order, and the constructed state carries branch `"master"`. -/
theorem online_retries_once_on_master_witness :
    ((Input.init exCtxRetry "ds" "feature").2.filter Effect.isGetIdentity =
      [.restGetDatasetIdentity "ds" "feature",
       .restGetDatasetIdentity "ds" "master"]) :=
  (online_retries_once_on_master exCtxRetry "ds" "feature" exDiSmall rfl rfl rfl).1

/-- Claim C3: a resolved identity whose `last_transaction_rid` is `None`
makes the constructor fail with `DatasetHasNoTransactionsError` right away:
the trace holds the single resolution call, so no schema lookup and no data
retrieval ever happened. -/
theorem init_raises_no_transactions (ctx : Context) (alias_ branch : String)
    (di : DatasetIdentity)
    (hon : Input._is_online ctx = true)
    (hres : ctx.foundry_rest_client.get_dataset_identity alias_ branch = .ok di)
    (htx : di.last_transaction_rid = .none) :
    Input.init ctx alias_ branch =
      (.error (.datasetHasNoTransactions alias_),
       [Effect.restGetDatasetIdentity alias_ branch]) := by
  have honline : Input._online ctx alias_ branch =
      Input._online_resolved ctx alias_ branch di
        [Effect.restGetDatasetIdentity alias_ branch] := by
    unfold Input._online
    rw [hres]
  rw [init_online_eq ctx alias_ branch hon, honline, online_resolved_eq,
    if_pos htx]

/-- Witness for C3 at a concrete context. -/
theorem init_raises_no_transactions_witness :
    Input.init exCtxNoTx "ds" "master" =
      (.error (.datasetHasNoTransactions "ds"),
       [Effect.restGetDatasetIdentity "ds" "master"]) :=
  init_raises_no_transactions exCtxNoTx "ds" "master" exDiNoTx rfl rfl rfl

/-- Claim C4: when the schema lookup raises `DatasetHasNoSchemaError`, the
constructor succeeds in file-only mode (`_is_spark_df_retrievable = false`),
and `dataframe()` then returns `None` on this and every later call (the
state it hands back is unchanged). -/
theorem init_no_schema_file_only (ctx : Context) (alias_ branch : String)
    (di : DatasetIdentity)
    (hon : Input._is_online ctx = true)
    (hres : ctx.foundry_rest_client.get_dataset_identity alias_ branch = .ok di)
    (htx : ¬ di.last_transaction_rid = .none)
    (hschema : ctx.foundry_rest_client.get_dataset_schema di.dataset_rid
      di.last_transaction_rid branch = .error .datasetHasNoSchema) :
    Input.init ctx alias_ branch =
      (.ok { _is_spark_df_retrievable := false, _dataset_identity := di,
             branch := branch, _spark_df := .none },
       [Effect.restGetDatasetIdentity alias_ branch,
        Effect.restGetDatasetSchema di.dataset_rid di.last_transaction_rid branch]) ∧
    (∀ ctx2 : Context,
      Input.dataframe ctx2
        { _is_spark_df_retrievable := false, _dataset_identity := di,
          branch := branch, _spark_df := .none } =
        .some (.none,
               { _is_spark_df_retrievable := false, _dataset_identity := di,
                 branch := branch, _spark_df := .none },
               ctx2.cached_foundry_client.cache, [])) := by
  constructor
  · have honline : Input._online ctx alias_ branch =
        Input._online_resolved ctx alias_ branch di
          [Effect.restGetDatasetIdentity alias_ branch] := by
      unfold Input._online
      rw [hres]
    have hschema2 : Input._dataset_has_schema ctx di branch =
        (.ok false,
         [Effect.restGetDatasetSchema di.dataset_rid di.last_transaction_rid branch]) := by
      unfold Input._dataset_has_schema
      rw [hschema]
    rw [init_online_eq ctx alias_ branch hon, honline, online_resolved_eq,
      if_neg htx, hschema2]
    rfl
  · intro ctx2
    unfold Input.dataframe
    simp

/-- Witness for C4 at a concrete context. -/
theorem init_no_schema_file_only_witness :
    Input.init exCtxNoSchema "ds" "master" =
      (.ok exStateFileOnly,
       [Effect.restGetDatasetIdentity "ds" "master",
        Effect.restGetDatasetSchema "rid-small" (.some "txn-1") "master"]) :=
  (init_no_schema_file_only exCtxNoSchema "ds" "master" exDiSmall rfl rfl
    (by decide) rfl).1

/-- Claim C9: with the cache frozen the constructor goes offline: the
identity comes from the cache's not-branch-aware resolution, the requested
branch is returned unchanged, the trace holds no REST call, construction
never fails (in particular `DatasetHasNoTransactionsError` is impossible),
and the stored identity does not depend on the requested branch. -/
theorem offline_init_no_rest (ctx : Context) (alias_ branch : String)
    (hoff : ctx.config.transforms_freeze_cache = true) :
    (Input.init ctx alias_ branch =
      (.ok { _is_spark_df_retrievable :=
               ctx.cached_foundry_client.cache.dataset_has_schema
                 (ctx.cached_foundry_client.cache.get_dataset_identity_not_branch_aware alias_),
             _dataset_identity :=
               ctx.cached_foundry_client.cache.get_dataset_identity_not_branch_aware alias_,
             branch := branch, _spark_df := .none },
       [Effect.cacheGetIdentityNotBranchAware alias_])) ∧
    ((Input.init ctx alias_ branch).2.all (fun e => !e.isRestCall) = true) ∧
    (∀ e, (Input.init ctx alias_ branch).1 ≠ .error e) ∧
    (∀ branch2 : String,
      (Input.init ctx alias_ branch2).1.map InputState._dataset_identity =
        (Input.init ctx alias_ branch).1.map InputState._dataset_identity) := by
  have hmain : ∀ b : String, Input.init ctx alias_ b =
      (.ok { _is_spark_df_retrievable :=
               ctx.cached_foundry_client.cache.dataset_has_schema
                 (ctx.cached_foundry_client.cache.get_dataset_identity_not_branch_aware alias_),
             _dataset_identity :=
               ctx.cached_foundry_client.cache.get_dataset_identity_not_branch_aware alias_,
             branch := b, _spark_df := .none },
       [Effect.cacheGetIdentityNotBranchAware alias_]) := by
    intro b
    unfold Input.init Input._is_online Input._offline
    rw [hoff]
    by_cases hs : ctx.cached_foundry_client.cache.dataset_has_schema
        (ctx.cached_foundry_client.cache.get_dataset_identity_not_branch_aware alias_) = true
    · simp [hs]
    · rw [Bool.not_eq_true] at hs
      simp [hs]
  refine ⟨hmain branch, ?_, ?_, ?_⟩
  · rw [hmain branch]
    rfl
  · intro e
    rw [hmain branch]
    simp
  · intro branch2
    rw [hmain branch, hmain branch2]
    rfl

/-- Witness for C9 at a concrete frozen context. -/
theorem offline_init_no_rest_witness :
    Input.init exCtxFrozen "ds" "feature" =
      (.ok { _is_spark_df_retrievable := true, _dataset_identity := exDiSmall,
             branch := "feature", _spark_df := .none },
       [Effect.cacheGetIdentityNotBranchAware "ds"]) :=
  (offline_init_no_rest exCtxFrozen "ds" "feature" rfl).1

/-- Claim C6: the sampled retrieval submits exactly the query
`SELECT * FROM` followed by the backquoted dataset path, with
` ORDER BY RAND()` appended iff the random-sampling flag is set and
` LIMIT <configured row limit>` last, executed through `query_foundry_sql`
against the given effective branch. -/
theorem read_spark_df_with_sql_query_exact (ctx : Context)
    (dataset_path branch : String) :
    Input._read_spark_df_with_sql_query ctx dataset_path branch =
      (ctx.foundry_rest_client.query_foundry_sql
        ("SELECT * FROM `" ++ dataset_path ++ "`" ++
          (if ctx.config.transforms_sql_sample_select_random = true then
            " ORDER BY RAND()" else "") ++
          " LIMIT " ++ toString ctx.config.transforms_sql_sample_row_limit)
        branch,
       [Effect.restQueryFoundrySql
        ("SELECT * FROM `" ++ dataset_path ++ "`" ++
          (if ctx.config.transforms_sql_sample_select_random = true then
            " ORDER BY RAND()" else "") ++
          " LIMIT " ++ toString ctx.config.transforms_sql_sample_row_limit)
        branch]) := by
  unfold Input._read_spark_df_with_sql_query
  by_cases hr : ctx.config.transforms_sql_sample_select_random = true
  · simp [hr]
  · simp [hr, String.append_empty]

/-- Closed form of the uncached retrieval when a last transaction exists:
forced or strictly-below-threshold goes through `load_dataset`, anything
else warns and runs the sampling query; both store the dataframe under the
identity. -/
theorem retrieve_from_foundry_eq (ctx : Context) (di : DatasetIdentity)
    (branch : String) (lt : LastTransaction)
    (hlt : di.last_transaction = .some lt) :
    Input._retrieve_from_foundry_and_cache ctx di branch =
      (if ctx.config.transforms_force_full_dataset_download = true ∨
          Input._size_in_mega_bytes ctx di lt <
            ctx.config.transforms_sql_dataset_size_threshold then
        .some (ctx.cached_foundry_client.load_dataset di.dataset_rid branch,
               ctx.cached_foundry_client.cache.insert di
                 (ctx.cached_foundry_client.load_dataset di.dataset_rid branch),
               (Input._size_in_bytes ctx di lt).2 ++
                 [Effect.loadDataset di.dataset_rid branch])
      else
        .some ((Input._read_spark_df_with_sql_query ctx di.dataset_path branch).1,
               ctx.cached_foundry_client.cache.insert di
                 (Input._read_spark_df_with_sql_query ctx di.dataset_path branch).1,
               (Input._size_in_bytes ctx di lt).2 ++
                 [Effect.warnSubsetRetrieval
                   ((di.dataset_path.splitOn "/").getLastD "")
                   di.dataset_rid ctx.config.transforms_sql_sample_row_limit] ++
                 (Input._read_spark_df_with_sql_query ctx di.dataset_path branch).2)) := by
  rcases hsz : Input._size_in_bytes ctx di lt with ⟨n, str⟩
  rcases hq : Input._read_spark_df_with_sql_query ctx di.dataset_path branch with ⟨qdf, qtr⟩
  have hmb : Input._size_in_mega_bytes ctx di lt = (n : ℚ) / 1024 / 1024 := by
    unfold Input._size_in_mega_bytes
    rw [hsz]
  unfold Input._retrieve_from_foundry_and_cache
  simp only [hlt, hsz, hq, hmb]

/-- The size computation emits no load, warning or query effect. -/
theorem size_in_bytes_trace_flags (ctx : Context) (di : DatasetIdentity)
    (lt : LastTransaction) :
    (Input._size_in_bytes ctx di lt).2.any Effect.isLoadDataset = false ∧
    (Input._size_in_bytes ctx di lt).2.any Effect.isWarn = false ∧
    (Input._size_in_bytes ctx di lt).2.any Effect.isQuery = false := by
  unfold Input._size_in_bytes
  by_cases hv : is_dataset_a_view lt.transaction = true <;>
    simp [hv, Effect.isLoadDataset, Effect.isWarn, Effect.isQuery]

/-- The sampling query emits exactly one query effect and nothing else. -/
theorem read_query_trace_flags (ctx : Context) (p b : String) :
    (Input._read_spark_df_with_sql_query ctx p b).2.any Effect.isQuery = true ∧
    (Input._read_spark_df_with_sql_query ctx p b).2.any Effect.isLoadDataset = false ∧
    (Input._read_spark_df_with_sql_query ctx p b).2.any Effect.isWarn = false := by
  unfold Input._read_spark_df_with_sql_query
  refine ⟨rfl, rfl, rfl⟩

/-- Claim C10: in the uncached online retrieval the full download happens if
and only if the force flag is set or the size in megabytes is strictly below
the threshold (stated as a Boolean equation), the warning is emitted exactly
in the complementary case, and a dataset whose size equals the threshold
(force flag unset) goes to the sampled query. -/
theorem retrieval_full_iff_forced_or_below (ctx : Context)
    (di : DatasetIdentity) (branch : String) (lt : LastTransaction)
    (hlt : di.last_transaction = .some lt) :
    ((Input.retrievalTrace ctx di branch).any Effect.isLoadDataset =
      (ctx.config.transforms_force_full_dataset_download ||
        decide (Input._size_in_mega_bytes ctx di lt <
          ctx.config.transforms_sql_dataset_size_threshold))) ∧
    ((Input.retrievalTrace ctx di branch).any Effect.isWarn =
      (!ctx.config.transforms_force_full_dataset_download &&
        decide (ctx.config.transforms_sql_dataset_size_threshold ≤
          Input._size_in_mega_bytes ctx di lt))) ∧
    (ctx.config.transforms_force_full_dataset_download = false →
      Input._size_in_mega_bytes ctx di lt =
        ctx.config.transforms_sql_dataset_size_threshold →
      (Input.retrievalTrace ctx di branch).any Effect.isQuery = true) := by
  obtain ⟨hl, hw, hq⟩ := size_in_bytes_trace_flags ctx di lt
  obtain ⟨hq2, hl2, hw2⟩ := read_query_trace_flags ctx di.dataset_path branch
  unfold Input.retrievalTrace
  rw [retrieve_from_foundry_eq ctx di branch lt hlt]
  by_cases hc : ctx.config.transforms_force_full_dataset_download = true ∨
      Input._size_in_mega_bytes ctx di lt <
        ctx.config.transforms_sql_dataset_size_threshold
  · rw [if_pos hc]
    refine ⟨?_, ?_, ?_⟩
    · rcases hc with hf | hs
      · simp [List.any_append, hl, hf, Effect.isLoadDataset]
      · simp [List.any_append, hl, hs, Effect.isLoadDataset]
    · rcases hc with hf | hs
      · simp [List.any_append, hw, hf, Effect.isWarn]
      · simp [List.any_append, hw, Effect.isWarn, not_le.mpr hs]
    · intro hf heq
      rcases hc with hf2 | hs
      · rw [hf] at hf2
        exact absurd hf2 (by simp)
      · rw [heq] at hs
        exact absurd hs (lt_irrefl _)
  · rw [if_neg hc]
    have hf : ctx.config.transforms_force_full_dataset_download = false := by
      cases hb : ctx.config.transforms_force_full_dataset_download with
      | false => rfl
      | true => exact absurd (Or.inl hb) hc
    have hs : ctx.config.transforms_sql_dataset_size_threshold ≤
        Input._size_in_mega_bytes ctx di lt := by
      by_contra hne
      exact hc (Or.inr (not_le.mp hne))
    refine ⟨?_, ?_, ?_⟩
    · simp [List.any_append, hl, hl2, hf, not_lt.mpr hs, Effect.isLoadDataset]
    · simp [List.any_append, hw, hw2, hf, hs, Effect.isWarn]
    · intro _ _
      simp [List.any_append, hq, hq2, Effect.isQuery]

/-- The 1 MiB example dataset measures exactly 1 megabyte (the size
computation does not consult the context for a non-view transaction). -/
theorem exSizeSmall_eq (ctx : Context) :
    Input._size_in_mega_bytes ctx exDiSmall exLtSmall = 1 := by
  unfold Input._size_in_mega_bytes Input._size_in_bytes
  norm_num [is_dataset_a_view, exLtSmall]

/-- The 2 MiB example dataset measures exactly 2 megabytes. -/
theorem exSizeBig_eq (ctx : Context) :
    Input._size_in_mega_bytes ctx exDiBig exLtBig = 2 := by
  unfold Input._size_in_mega_bytes Input._size_in_bytes
  norm_num [is_dataset_a_view, exLtBig]

/-- Witness for C10 at a concrete context: a dataset sitting exactly on the
threshold (1 MiB, threshold 1 MB) is fetched via the sampling query. -/
theorem retrieval_full_iff_forced_or_below_witness :
    (Input.retrievalTrace exCtxThr1 exDiSmall "master").any Effect.isQuery = true :=
  (retrieval_full_iff_forced_or_below exCtxThr1 exDiSmall "master" exLtSmall
    rfl).2.2 rfl (by rw [exSizeSmall_eq]; rfl)

/-- Claim C1 as stated is refuted: with the force-full-download flag set, a
dataset strictly above the size threshold (2 MiB against a 1 MB threshold)
is still downloaded in full via `load_dataset`, with no sampling query and
no warning. -/
theorem retrieval_above_threshold_counterexample :
    exCtxForce.config.transforms_sql_dataset_size_threshold <
      Input._size_in_mega_bytes exCtxForce exDiBig exLtBig ∧
    exCtxForce.config.transforms_force_full_dataset_download = true ∧
    (Input.retrievalTrace exCtxForce exDiBig "master").any Effect.isWarn = false ∧
    (Input.retrievalTrace exCtxForce exDiBig "master").any Effect.isQuery = false ∧
    (Input.retrievalTrace exCtxForce exDiBig "master").any Effect.isLoadDataset = true := by
  have htrace : Input.retrievalTrace exCtxForce exDiBig "master" =
      (Input._size_in_bytes exCtxForce exDiBig exLtBig).2 ++
        [Effect.loadDataset exDiBig.dataset_rid "master"] := by
    have hforce : exCtxForce.config.transforms_force_full_dataset_download = true := rfl
    unfold Input.retrievalTrace
    rw [retrieve_from_foundry_eq exCtxForce exDiBig "master" exLtBig rfl,
      if_pos (Or.inl hforce)]
  have hstr : (Input._size_in_bytes exCtxForce exDiBig exLtBig).2 = [] := by
    unfold Input._size_in_bytes
    simp [is_dataset_a_view, exLtBig]
  refine ⟨?_, rfl, ?_, ?_, ?_⟩
  · rw [exSizeBig_eq]
    norm_num [exCtxForce, exCtx]
  · rw [htrace, hstr]
    rfl
  · rw [htrace, hstr]
    rfl
  · rw [htrace, hstr]
    rfl

/-- Claim C1 (amended): in the uncached online retrieval, a dataset whose
size in megabytes is strictly below the threshold is downloaded in full via
`load_dataset` (no query, no warning); a dataset strictly above the
threshold is fetched via the sampling SQL query with a warning, provided the
force-full-download flag is not set. -/
theorem retrieval_threshold_modes (ctx : Context) (di : DatasetIdentity)
    (branch : String) (lt : LastTransaction)
    (hlt : di.last_transaction = .some lt) :
    (Input._size_in_mega_bytes ctx di lt <
        ctx.config.transforms_sql_dataset_size_threshold →
      Input.retrievalResult ctx di branch =
        .some (ctx.cached_foundry_client.load_dataset di.dataset_rid branch) ∧
      (Input.retrievalTrace ctx di branch).any Effect.isLoadDataset = true ∧
      (Input.retrievalTrace ctx di branch).any Effect.isQuery = false ∧
      (Input.retrievalTrace ctx di branch).any Effect.isWarn = false) ∧
    (ctx.config.transforms_force_full_dataset_download = false →
      ctx.config.transforms_sql_dataset_size_threshold <
        Input._size_in_mega_bytes ctx di lt →
      Input.retrievalResult ctx di branch =
        .some ((Input._read_spark_df_with_sql_query ctx di.dataset_path branch).1) ∧
      (Input.retrievalTrace ctx di branch).any Effect.isQuery = true ∧
      (Input.retrievalTrace ctx di branch).any Effect.isWarn = true ∧
      (Input.retrievalTrace ctx di branch).any Effect.isLoadDataset = false) := by
  obtain ⟨hl, hw, hq⟩ := size_in_bytes_trace_flags ctx di lt
  obtain ⟨hq2, hl2, hw2⟩ := read_query_trace_flags ctx di.dataset_path branch
  unfold Input.retrievalTrace Input.retrievalResult
  rw [retrieve_from_foundry_eq ctx di branch lt hlt]
  constructor
  · intro hbelow
    rw [if_pos (Or.inr hbelow)]
    refine ⟨rfl, ?_, ?_, ?_⟩ <;>
      simp [List.any_append, hl, hw, hq, Effect.isLoadDataset, Effect.isQuery,
        Effect.isWarn]
  · intro hf habove
    have hcond : ¬ (ctx.config.transforms_force_full_dataset_download = true ∨
        Input._size_in_mega_bytes ctx di lt <
          ctx.config.transforms_sql_dataset_size_threshold) := by
      rintro (hf2 | hs)
      · rw [hf] at hf2
        exact absurd hf2 (by simp)
      · exact absurd habove (not_lt_of_gt hs)
    rw [if_neg hcond]
    refine ⟨rfl, ?_, ?_, ?_⟩ <;>
      simp [List.any_append, hl, hw, hq, hq2, hl2, hw2, Effect.isLoadDataset,
        Effect.isQuery, Effect.isWarn]

/-- Witness for C1 (amended): a 1 MiB dataset under a 2 MB threshold is
downloaded in full. -/
theorem retrieval_threshold_modes_witness :
    Input.retrievalResult exCtx exDiSmall "master" = .some { id := 1 } ∧
    (Input.retrievalTrace exCtx exDiSmall "master").any Effect.isLoadDataset = true ∧
    (Input.retrievalTrace exCtx exDiSmall "master").any Effect.isQuery = false ∧
    (Input.retrievalTrace exCtx exDiSmall "master").any Effect.isWarn = false :=
  (retrieval_threshold_modes exCtx exDiSmall "master" exLtSmall rfl).1
    (by rw [exSizeSmall_eq]; norm_num [exCtx])

/-- On a cache miss (online, schema, nothing memoized), `dataframe()` is the
uncached retrieval wrapped into the memoizing state update. -/
theorem dataframe_miss_eq (ctx : Context) (s : InputState)
    (hon : Input._is_online ctx = true)
    (hret : s._is_spark_df_retrievable = true)
    (hnone : s._spark_df = .none)
    (hmem : s._dataset_identity ∉ ctx.cached_foundry_client.cache.keys) :
    Input.dataframe ctx s =
      (match Input._retrieve_from_foundry_and_cache ctx s._dataset_identity s.branch with
       | .some (df, c2, tr) =>
          .some (.some df, { s with _spark_df := .some df }, c2, tr)
       | .none => .none) := by
  unfold Input.dataframe Input._retrieve_spark_df
  rw [if_pos ⟨hret, hnone⟩, if_pos hon, if_neg hmem]

/-- Claim C5: for an online `Input` with a schema and nothing memoized yet,
`dataframe()` returns the cached dataframe (cache untouched, no effects)
when the dataset identity is among the cache keys; otherwise it fetches from
Foundry (full download or sampling query) and the resulting cache holds the
fetched dataframe under that identity. -/
theorem dataframe_cache_hit_or_fetch (ctx : Context) (s : InputState)
    (hon : Input._is_online ctx = true)
    (hret : s._is_spark_df_retrievable = true)
    (hnone : s._spark_df = .none) :
    (s._dataset_identity ∈ ctx.cached_foundry_client.cache.keys →
      ∃ df, ctx.cached_foundry_client.cache.lookup s._dataset_identity = .some df ∧
        Input.dataframe ctx s =
          .some (.some df, { s with _spark_df := .some df },
                 ctx.cached_foundry_client.cache, [])) ∧
    (s._dataset_identity ∉ ctx.cached_foundry_client.cache.keys →
      ∀ lt, s._dataset_identity.last_transaction = .some lt →
        ∃ df cache2 tr,
          Input.dataframe ctx s =
            .some (.some df, { s with _spark_df := .some df }, cache2, tr) ∧
          cache2.lookup s._dataset_identity = .some df) := by
  constructor
  · intro hmem
    obtain ⟨df, hdf⟩ := Option.isSome_iff_exists.mp
      (Cache.lookup_isSome_of_mem_keys _ _ hmem)
    refine ⟨df, hdf, ?_⟩
    unfold Input.dataframe Input._retrieve_spark_df Input._retrieve_from_cache
    rw [if_pos ⟨hret, hnone⟩, if_pos hon, if_pos hmem, hdf]
  · intro hmem lt hlt
    rw [dataframe_miss_eq ctx s hon hret hnone hmem,
      retrieve_from_foundry_eq ctx s._dataset_identity s.branch lt hlt]
    by_cases hc : ctx.config.transforms_force_full_dataset_download = true ∨
        Input._size_in_mega_bytes ctx s._dataset_identity lt <
          ctx.config.transforms_sql_dataset_size_threshold
    · rw [if_pos hc]
      exact ⟨_, _, _, rfl, Cache.lookup_insert_self _ _ _⟩
    · rw [if_neg hc]
      exact ⟨_, _, _, rfl, Cache.lookup_insert_self _ _ _⟩

/-- Witness for C5 at a concrete context whose cache already holds an entry
for the identity: `dataframe()` answers from the cache. -/
theorem dataframe_cache_hit_or_fetch_witness :
    (Input.dataframe exCtxHit exState).isSome = true := by
  obtain ⟨df, hdf, heq⟩ :=
    (dataframe_cache_hit_or_fetch exCtxHit exState rfl rfl rfl).1 (by decide)
  rw [heq]
  rfl

/-- Claim C7: `dataframe()` hands back a state agreeing with the input state
on the stored dataset identity and branch (only the memoized `_spark_df` may
differ), so `get_dataset_identity` and `get_local_path_to_dataset` — which
read the state without producing a new one — answer the same before and
after. -/
theorem dataframe_preserves_identity_and_branch (ctx ctx2 : Context)
    (s : InputState) (r : Option SparkDF) (s2 : InputState) (c : Cache)
    (tr : List Effect)
    (h : Input.dataframe ctx s = .some (r, s2, c, tr)) :
    s2._dataset_identity = s._dataset_identity ∧
    s2.branch = s.branch ∧
    Input.get_dataset_identity s2 = Input.get_dataset_identity s ∧
    Input.get_local_path_to_dataset ctx2 s2 =
      Input.get_local_path_to_dataset ctx2 s := by
  have hids : s2._dataset_identity = s._dataset_identity ∧ s2.branch = s.branch := by
    unfold Input.dataframe at h
    by_cases hcond : (s._is_spark_df_retrievable = true ∧ s._spark_df = .none)
    · rw [if_pos hcond] at h
      by_cases hon : Input._is_online ctx = true
      · rw [if_pos hon] at h
        cases hr : Input._retrieve_spark_df ctx s._dataset_identity s.branch with
        | none => rw [hr] at h; cases h
        | some v =>
          rcases v with ⟨df, c2, tr2⟩
          rw [hr] at h
          simp only [Option.some.injEq, Prod.mk.injEq] at h
          rw [← h.2.1]
          exact ⟨rfl, rfl⟩
      · rw [if_neg hon] at h
        cases hl : ctx.cached_foundry_client.cache.lookup s._dataset_identity with
        | none => rw [hl] at h; cases h
        | some df =>
          rw [hl] at h
          simp only [Option.some.injEq, Prod.mk.injEq] at h
          rw [← h.2.1]
          exact ⟨rfl, rfl⟩
    · rw [if_neg hcond] at h
      simp only [Option.some.injEq, Prod.mk.injEq] at h
      rw [← h.2.1]
      exact ⟨rfl, rfl⟩
  refine ⟨hids.1, hids.2, ?_, ?_⟩
  · unfold Input.get_dataset_identity
    rw [hids.1]
  · unfold Input.get_local_path_to_dataset
    rw [hids.1, hids.2]

/-- Witness for C7 at a concrete state (file-only mode, where `dataframe()`
returns the state unchanged). -/
theorem dataframe_preserves_identity_and_branch_witness :
    exStateFileOnly._dataset_identity = exStateFileOnly._dataset_identity ∧
    exStateFileOnly.branch = exStateFileOnly.branch ∧
    Input.get_dataset_identity exStateFileOnly =
      Input.get_dataset_identity exStateFileOnly ∧
    Input.get_local_path_to_dataset exCtx exStateFileOnly =
      Input.get_local_path_to_dataset exCtx exStateFileOnly :=
  dataframe_preserves_identity_and_branch exCtx exCtx exStateFileOnly
    .none exStateFileOnly exCtx.cached_foundry_client.cache [] rfl

/-- Claim C8 fails as stated: the single non-list value `""` (falsy in
Python) is stored as the empty list, not wrapped into `[""]`. -/
theorem unmarking_empty_string_not_wrapped :
    (UnmarkingDef.init (PyVal.str "") PyVal.none).marking_ids = [] ∧
    (UnmarkingDef.init (PyVal.str "") PyVal.none).marking_ids ≠ [""] := by
  decide

/-- Claim C8 (amended): `UnmarkingDef` (and `Markings`/`OrgMarkings`, which
inherit `__init__` unchanged) store both arguments as lists: a list argument
as-is, a single truthy (nonempty-string) value as the one-element list
holding it, and `None` or any other falsy single value (the empty string) as
the empty list. -/
theorem unmarking_normalizes_to_lists (m b : PyVal) :
    ((m.isList = true → (UnmarkingDef.init m b).marking_ids = m.asList) ∧
     (m.isList = false → m.truthy = true →
       (UnmarkingDef.init m b).marking_ids = [m.asStr]) ∧
     (m.truthy = false → (UnmarkingDef.init m b).marking_ids = []) ∧
     (b.isList = true → (UnmarkingDef.init m b).branches = b.asList) ∧
     (b.isList = false → b.truthy = true →
       (UnmarkingDef.init m b).branches = [b.asStr]) ∧
     (b.truthy = false → (UnmarkingDef.init m b).branches = [])) ∧
    Markings.init m b = UnmarkingDef.init m b ∧
    OrgMarkings.init m b = UnmarkingDef.init m b := by
  refine ⟨⟨?_, ?_, ?_, ?_, ?_, ?_⟩, rfl, rfl⟩ <;> intros <;>
    cases m <;> cases b <;>
      simp_all [UnmarkingDef.init, _as_list, PyVal.truthy, PyVal.isList,
        PyVal.asList, PyVal.asStr]

/-- Witness for C8 (amended) at concrete values: a nonempty string is
wrapped into a one-element list and `None` becomes the empty list. -/
theorem unmarking_normalizes_to_lists_witness :
    (UnmarkingDef.init (PyVal.str "marking-1") PyVal.none).marking_ids = ["marking-1"] ∧
    (UnmarkingDef.init (PyVal.str "marking-1") PyVal.none).branches = [] :=
  ⟨(unmarking_normalizes_to_lists (PyVal.str "marking-1") PyVal.none).1.2.1
      (by decide) (by decide),
   (unmarking_normalizes_to_lists (PyVal.str "marking-1") PyVal.none).1.2.2.2.2.2
      (by decide)⟩

end FoundryDevTools
